import Mathlib

/-!
Shallow embedding of `src/internal/recipe/validation.py`, a conformance
validation harness that checks tables written by a producer implementation
against what a consumer query engine reports.  The script runs one of four
named scenarios selected by a `--test` argument; each scenario issues one
query to the external engine and checks the result with a chain of Python
`assert` statements (an assertion failure or a missing dictionary key raises,
aborting the scenario and making the process exit non-zero; falling through
to the end of the script exits 0).

External query results are inputs of the embedded functions: each scenario
function takes the rows the engine would have returned.  A failed fetch is
an `Except.error`-valued input.  Python `assert` chains are embedded as
`Except Discrepancy Unit`: the first failing check aborts with its
discrepancy, exactly as an uncaught Python exception would.
-/

/-- One detected mismatch, or a fatal execution error, in the vocabulary of
the specification's error taxonomy. -/
inductive Discrepancy where
  | missingKey (key : String)
  | valueMismatch (key expected actual : String)
  | derivedMismatch (name : String) (expected actual : Int)
  | rowCountMismatch (expected actual : Nat)
  | schemaMismatch
  | rowsMismatch
  | executionError
deriving DecidableEq, Repr

/-- Lookup in a Python dict built by a comprehension over rows: a later
entry with the same key overrides an earlier one. -/
def dictGet : List (String × String) → String → Option String
  | [], _ => none
  | (k, v) :: rest, key =>
    match dictGet rest key with
    | some r => some r
    | none => if k = key then some v else none

/-- `props[key]` followed by `assert props[key] == expected`: a missing key
raises KeyError, a different value raises AssertionError. -/
def checkProp (props : List (String × String)) (key expected : String) :
    Except Discrepancy Unit :=
  match dictGet props key with
  | none => .error (.missingKey key)
  | some actual =>
    if actual = expected then .ok () else .error (.valueMismatch key expected actual)

/-- Sequencing of two checks with Python exception semantics: the first
error aborts everything after it. -/
def seqE : Except Discrepancy Unit → Except Discrepancy Unit → Except Discrepancy Unit
  | .ok _, e => e
  | .error d, _ => .error d

/-- The discrepancies a run reports: Python surfaces only the uncaught
exception, so a run reports at most the first failure. -/
def reported : Except Discrepancy Unit → List Discrepancy
  | .ok _ => []
  | .error d => [d]

/-- Scenario `testSetProperties`: fetch `SHOW TBLPROPERTIES` rows, build the
property dict, then assert the four expected values in order. -/
def testSetProperties (fetch : Except Unit (List (String × String))) :
    Except Discrepancy Unit :=
  match fetch with
  | .error _ => .error .executionError
  | .ok props =>
    seqE (checkProp props "write.parquet.compression-codec" "snappy")
      (seqE (checkProp props "commit.manifest-merge.enabled" "true")
        (seqE (checkProp props "commit.manifest.min-count-to-merge" "1")
          (checkProp props "commit.manifest.target-size-bytes" "1")))

/-- Scenario `testAddedFile`: fetch the `SELECT COUNT(*)` result rows, then
`assert len(rows) == 1` and `assert rows[0]["count(1)"] == 13`. -/
def testAddedFile (fetch : Except Unit (List Int)) : Except Discrepancy Unit :=
  match fetch with
  | .error _ => .error .executionError
  | .ok rows =>
    if h : rows.length = 1 then
      let c := rows.head (by intro hnil; simp [hnil] at h)
      if c = 13 then .ok () else .error (.derivedMismatch "count(1)" 13 c)
    else .error (.rowCountMismatch 1 rows.length)

/-- The dict comprehension of `testReadSpecUpdate`: keep rows whose
`col_name` is not None, mapping it to `data_type`, later rows overriding. -/
def specMetadata (rows : List (Option String × String)) : List (String × String) :=
  rows.filterMap (fun r => match r.1 with | none => none | some k => some (k, r.2))

/-- Scenario `testReadSpecUpdate`: fetch `DESCRIBE TABLE EXTENDED` rows,
build the metadata dict, then assert the two partition-transform descriptor
strings exactly. -/
def testReadSpecUpdate (fetch : Except Unit (List (Option String × String))) :
    Except Discrepancy Unit :=
  match fetch with
  | .error _ => .error .executionError
  | .ok rows =>
    seqE (checkProp (specMetadata rows) "Part 0" "truncate(5, bar)")
      (checkProp (specMetadata rows) "Part 1" "bucket(3, baz)")

/-- The four expected property pairs of the SetProperties scenario, in the
order the script asserts them. -/
def goodProps : List (String × String) :=
  [("write.parquet.compression-codec", "snappy"),
   ("commit.manifest-merge.enabled", "true"),
   ("commit.manifest.min-count-to-merge", "1"),
   ("commit.manifest.target-size-bytes", "1")]

/-- Replace the value stored under `key`, keeping every other pair. -/
def setVal (props : List (String × String)) (key v : String) : List (String × String) :=
  props.map (fun p => if p.1 = key then (p.1, v) else p)

/-- Spark SQL data types as they appear in the scenario's declared schema. -/
inductive SparkType where
  | booleanT | stringT | integerT | longT | floatT | doubleT
  | timestampNTZT | timestampT | dateT | binaryT
  | decimalT (precision scale : Nat)
  | arrayT (elem : SparkType)
deriving DecidableEq, Repr

/-- One `StructField(name, dataType, nullable)` of a Spark schema. -/
structure SparkField where
  name : String
  dtype : SparkType
  nullable : Bool
deriving DecidableEq, Repr

/-- A Python runtime value in a collected Spark row.  Floats are modelled as
exact rationals: every scenario puts the identical literal on both sides, so
rounding to machine precision on both sides preserves the equality outcome.
Decimals carry their unscaled integer and scale. -/
inductive PyVal where
  | bool (b : Bool)
  | str (s : String)
  | int (n : Int)
  | float (q : ℚ)
  | dec (unscaled : Int) (scale : Nat)
  | pydate (y m d : Nat)
  | pydatetime (y mo d h mi : Nat)
  | bytes (bs : List Nat)
  | pylist (xs : List (Option PyVal))

/-- A collected row: one optional value per field, `none` for SQL NULL. -/
abbrev PyRow := List (Option PyVal)

mutual

/-- Python `==` on cell values as the script exercises it: structural on
every type except decimals, which Python compares numerically. -/
def pyEq : PyVal → PyVal → Bool
  | .bool a, .bool b => a == b
  | .str a, .str b => a == b
  | .int a, .int b => a == b
  | .float a, .float b => decide (a = b)
  | .dec u1 s1, .dec u2 s2 => u1 * (10 : Int) ^ s2 == u2 * (10 : Int) ^ s1
  | .pydate y1 m1 d1, .pydate y2 m2 d2 => y1 == y2 && m1 == m2 && d1 == d2
  | .pydatetime y1 mo1 d1 h1 mi1, .pydatetime y2 mo2 d2 h2 mi2 =>
    y1 == y2 && mo1 == mo2 && d1 == d2 && h1 == h2 && mi1 == mi2
  | .bytes a, .bytes b => a == b
  | .pylist xs, .pylist ys => pyCellsEq xs ys
  | _, _ => false

/-- Python `==` on tuples of optional values (`Row == Row`, list `==` list):
elementwise, `None` equal only to `None`. -/
def pyCellsEq : List (Option PyVal) → List (Option PyVal) → Bool
  | [], [] => true
  | none :: xs, none :: ys => pyCellsEq xs ys
  | some x :: xs, some y :: ys => pyEq x y && pyCellsEq xs ys
  | _, _ => false

end

/-- Python `==` on two collected row lists: elementwise row equality. -/
def pyRowsEq : List PyRow → List PyRow → Bool
  | [], [] => true
  | r :: rs, t :: ts => pyCellsEq r t && pyRowsEq rs ts
  | _, _ => false

/-- The declared 17-field schema of the DifferentDataTypes scenario. -/
def dataTypesSchema : List SparkField :=
  [⟨"bool", .booleanT, true⟩, ⟨"string", .stringT, true⟩,
   ⟨"string_long", .stringT, true⟩, ⟨"int", .integerT, true⟩,
   ⟨"long", .longT, true⟩, ⟨"float", .floatT, true⟩,
   ⟨"double", .doubleT, true⟩, ⟨"timestamp", .timestampNTZT, true⟩,
   ⟨"timestamptz", .timestampT, true⟩, ⟨"date", .dateT, true⟩,
   ⟨"uuid", .stringT, true⟩, ⟨"binary", .binaryT, true⟩,
   ⟨"fixed", .binaryT, true⟩, ⟨"small_dec", .decimalT 8 2, true⟩,
   ⟨"med_dec", .decimalT 16 2, true⟩, ⟨"large_dec", .decimalT 24 2, true⟩,
   ⟨"list", .arrayT .integerT, true⟩]

/-- The all-null second expected row of the DifferentDataTypes scenario. -/
def allNullRow : PyRow := List.replicate 17 none

/-- The three expected rows of the DifferentDataTypes scenario, in order. -/
def dataTypesRows : List PyRow :=
  [[some (.bool false), some (.str "a"), some (.str "aaaaaaaaaaaaaaaaaaaaaa"),
    some (.int 1), some (.int 1), some (.float 0), some (.float 0),
    some (.pydatetime 2023 1 1 11 25), some (.pydatetime 2023 1 1 19 25),
    some (.pydate 2023 1 1), some (.str "00000000-0000-0000-0000-000000000000"),
    some (.bytes [1]), some (.bytes (List.replicate 16 0)),
    some (.dec 12345678 2), some (.dec 1234567890123456 2),
    some (.dec 123456789012345678901234 2),
    some (.pylist [some (.int 1), some (.int 2), some (.int 3)])],
   allNullRow,
   [some (.bool true), some (.str "z"), some (.str "zzzzzzzzzzzzzzzzzzzzzz"),
    some (.int 9), some (.int 9), some (.float (9 / 10)), some (.float (9 / 10)),
    some (.pydatetime 2023 3 1 11 25), some (.pydatetime 2023 3 1 19 25),
    some (.pydate 2023 3 1), some (.str "11111111-1111-1111-1111-111111111111"),
    some (.bytes [18]), some (.bytes (List.replicate 16 17)),
    some (.dec 87654321 2), some (.dec 6543210987654321 2),
    some (.dec 432109876543210987654321 2),
    some (.pylist [some (.int (-1)), some (.int (-2)), some (.int (-3))])]]

/-- Scenario `testReadDifferentDataTypes`: fetch the actual schema and rows,
assert schema equality, then row-count equality, then row-list equality. -/
def testReadDifferentDataTypes
    (fetch : Except Unit (List SparkField × List PyRow)) : Except Discrepancy Unit :=
  match fetch with
  | .error _ => .error .executionError
  | .ok (schema, rows) =>
    if dataTypesSchema = schema then
      if dataTypesRows.length = rows.length then
        if pyRowsEq dataTypesRows rows then .ok () else .error .rowsMismatch
      else .error (.rowCountMismatch dataTypesRows.length rows.length)
    else .error .schemaMismatch

/-- Everything the external engine would return to one invocation: the
result of each scenario's single query or metadata fetch. -/
structure Env where
  showPropsResult : Except Unit (List (String × String))
  countResult : Except Unit (List Int)
  dataTypesResult : Except Unit (List SparkField × List PyRow)
  describeResult : Except Unit (List (Option String × String))

/-- The four scenario names the `__main__` dispatch recognizes. -/
def recognizedTests : List String :=
  ["TestSetProperties", "TestAddedFile", "TestReadDifferentDataTypes",
   "TestReadSpecUpdate"]

/-- The `__main__` block after argument parsing: four sequential `if`
statements, an uncaught exception aborting the rest of the script. -/
def mainRun (testArg : String) (env : Env) : Except Discrepancy Unit :=
  seqE (if testArg = "TestSetProperties" then testSetProperties env.showPropsResult
        else .ok ())
    (seqE (if testArg = "TestAddedFile" then testAddedFile env.countResult
           else .ok ())
      (seqE (if testArg = "TestReadDifferentDataTypes" then
               testReadDifferentDataTypes env.dataTypesResult
             else .ok ())
        (if testArg = "TestReadSpecUpdate" then testReadSpecUpdate env.describeResult
         else .ok ())))

/-- Process exit status: 0 when the script runs to completion, 1 when an
uncaught exception (assertion failure, KeyError, query error) aborts it. -/
def exitCode (testArg : String) (env : Env) : Nat :=
  match mainRun testArg env with
  | .ok _ => 0
  | .error _ => 1

/-- The verdict of the single scenario selected by name: `ok` is Passed,
`error` is Failed or ExecutionError; trivially Passed when no scenario is
selected. -/
def scenarioResult (testArg : String) (env : Env) : Except Discrepancy Unit :=
  if testArg = "TestSetProperties" then testSetProperties env.showPropsResult
  else if testArg = "TestAddedFile" then testAddedFile env.countResult
  else if testArg = "TestReadDifferentDataTypes" then
    testReadDifferentDataTypes env.dataTypesResult
  else if testArg = "TestReadSpecUpdate" then testReadSpecUpdate env.describeResult
  else .ok ()

/-- The SQL statements an invocation submits to the engine: each scenario
issues exactly one query, before any of its assertions. -/
def queriesIssued (testArg : String) : List String :=
  (if testArg = "TestSetProperties" then
     ["SHOW TBLPROPERTIES default.go_test_set_properties"] else []) ++
  (if testArg = "TestAddedFile" then
     ["SELECT COUNT(*) FROM default.test_partitioned_by_days"] else []) ++
  (if testArg = "TestReadDifferentDataTypes" then
     ["SELECT * FROM default.go_test_different_data_types"] else []) ++
  (if testArg = "TestReadSpecUpdate" then
     ["DESCRIBE TABLE EXTENDED default.go_test_update_spec"] else [])

/-- Modelled from the spec: the `LogicalType` tagged variant of the data
model (section 3); the generalized comparators it types are not present in
`src/`, where each scenario hard-codes its assertions. -/
inductive LogicalType where
  | boolean | utf8 | int32 | int64 | float32 | float64
  | decimal (precision scale : Nat)
  | date | tsNoZone | tsWithZone
  | fixedBinary (len : Nat)
  | varBinary
  | list (elem : LogicalType)

mutual

/-- Modelled from the spec: `CanonicalValue`, the normalized in-memory form
of one cell — null or a typed payload (decimal retaining its declared scale,
timestamp as zone-naive instant plus explicit zone-awareness flag, binary as
an exact byte sequence). -/
inductive CanonicalValue where
  | null
  | bool (b : Bool)
  | str (s : String)
  | int (n : Int)
  | float (q : ℚ)
  | dec (unscaled : Int) (scale : Nat)
  | date (d : Int)
  | ts (instant : Int) (withZone : Bool)
  | bin (bs : List Nat)
  | list (xs : CVList)

/-- A sequence of canonical values (list payloads). -/
inductive CVList where
  | nil
  | cons (x : CanonicalValue) (xs : CVList)

end

/-- The element type an equivalence check on list payloads recurses with. -/
def LogicalType.elemType : LogicalType → LogicalType
  | .list e => e
  | t => t

mutual

/-- Modelled from the spec: the EquivalenceEngine contract
`equal(expected, actual, type)` (section 4.2) — null equals only null; exact
types by value identity; floats by exact equality; decimals equal iff same
unscaled integer at the same declared scale; timestamps equal iff same
instant with the same zone-awareness; lists equal iff same length and
element-wise equal in order. -/
def equal (x y : CanonicalValue) (t : LogicalType) : Bool :=
  match x, y with
  | .null, .null => true
  | .bool a, .bool b => decide (a = b)
  | .str a, .str b => decide (a = b)
  | .int a, .int b => decide (a = b)
  | .float a, .float b => decide (a = b)
  | .dec u1 s1, .dec u2 s2 => decide (u1 = u2 ∧ s1 = s2)
  | .date a, .date b => decide (a = b)
  | .ts i1 z1, .ts i2 z2 => decide (i1 = i2 ∧ z1 = z2)
  | .bin a, .bin b => decide (a = b)
  | .list xs, .list ys => equalList xs ys t.elemType
  | _, _ => false

/-- Element-wise equivalence of two canonical value sequences at an element
type: equal length and ordered element equality. -/
def equalList (xs ys : CVList) (t : LogicalType) : Bool :=
  match xs, ys with
  | .nil, .nil => true
  | .cons x xs, .cons y ys => equal x y t && equalList xs ys t
  | _, _ => false

end

/-- Modelled from the spec: the raw value shapes a consumer engine's query
result can present to the ValueCoercionLayer. -/
inductive RawValue where
  | null
  | bool (b : Bool)
  | str (s : String)
  | int (n : Int)
  | float (q : ℚ)
  | dec (unscaled : Int) (scale : Nat)
  | date (d : Int)
  | ts (instant : Int)
  | bytes (bs : List Nat)
  | list (xs : List RawValue)

/-- Modelled from the spec: the coercion failure taxonomy (section 7). -/
inductive CoerceError where
  | typeMismatch
  | lengthMismatch
  | unexpectedNull
deriving DecidableEq, Repr

mutual

/-- Modelled from the spec: the ValueCoercionLayer contract
`coerce(rawValue, declaredType)` (section 4.1), with the field's
nullability — null coerces to canonical null iff the field is nullable
(else `UnexpectedNull`); decimals retain the declared scale, rejecting
lossy rescaling as `TypeMismatch`; the timestamp zone-awareness flag comes
from the declared type; `FixedBinary(length)` fails with `LengthMismatch`
when the raw byte length differs; lists coerce element-wise; any other
shape disagreement is a `TypeMismatch`. -/
def coerce (raw : RawValue) (t : LogicalType) (nullable : Bool) :
    Except CoerceError CanonicalValue :=
  match raw, t with
  | .null, _ => if nullable then .ok .null else .error .unexpectedNull
  | .bool b, .boolean => .ok (.bool b)
  | .str s, .utf8 => .ok (.str s)
  | .int n, .int32 => .ok (.int n)
  | .int n, .int64 => .ok (.int n)
  | .float q, .float32 => .ok (.float q)
  | .float q, .float64 => .ok (.float q)
  | .dec u s, .decimal _ ds =>
    if s = ds then .ok (.dec u ds)
    else if s < ds then .ok (.dec (u * (10 : Int) ^ (ds - s)) ds)
    else if u % (10 : Int) ^ (s - ds) = 0 then .ok (.dec (u / (10 : Int) ^ (s - ds)) ds)
    else .error .typeMismatch
  | .date d, .date => .ok (.date d)
  | .ts i, .tsNoZone => .ok (.ts i false)
  | .ts i, .tsWithZone => .ok (.ts i true)
  | .bytes bs, .fixedBinary len =>
    if bs.length = len then .ok (.bin bs) else .error .lengthMismatch
  | .bytes bs, .varBinary => .ok (.bin bs)
  | .list xs, .list et => do
    let cs ← coerceElems xs et
    .ok (.list cs)
  | _, _ => .error .typeMismatch

/-- Element-wise coercion of a raw list payload at the declared element
type; the first failing element aborts. -/
def coerceElems (xs : List RawValue) (et : LogicalType) :
    Except CoerceError CVList :=
  match xs with
  | [] => .ok .nil
  | x :: rest => do
    let c ← coerce x et true
    let cs ← coerceElems rest et
    .ok (.cons c cs)

end

/-- Coerce one row field-wise against a list of (type, nullable) fields;
the row and the schema must have the same length. -/
def coerceRow : List RawValue → List (LogicalType × Bool) →
    Except CoerceError (List CanonicalValue)
  | [], [] => .ok []
  | x :: xs, (t, nb) :: fs => do
    let c ← coerce x t nb
    let cs ← coerceRow xs fs
    .ok (c :: cs)
  | _, _ => .error .typeMismatch

/-- The logical types of the DifferentDataTypes scenario's 17 fields, every
field nullable; the `fixed` column is a 16-byte fixed binary in the table
format under test (the Spark read surfaces it as plain binary). -/
def dataTypesLogical : List (LogicalType × Bool) :=
  [(.boolean, true), (.utf8, true), (.utf8, true), (.int32, true),
   (.int64, true), (.float32, true), (.float64, true), (.tsNoZone, true),
   (.tsWithZone, true), (.date, true), (.utf8, true), (.varBinary, true),
   (.fixedBinary 16, true), (.decimal 8 2, true), (.decimal 16 2, true),
   (.decimal 24 2, true), (.list .int32, true)]

/-- Actual SetProperties properties in which two of the four expected values
are wrong (the compression codec and the manifest-merge flag). -/
def twoWrongProps : List (String × String) :=
  [("write.parquet.compression-codec", "gzip"),
   ("commit.manifest-merge.enabled", "false"),
   ("commit.manifest.min-count-to-merge", "1"),
   ("commit.manifest.target-size-bytes", "1")]

/-- An engine environment answering every scenario's query with exactly the
expected data. -/
def envAllOk : Env where
  showPropsResult := .ok goodProps
  countResult := .ok [13]
  dataTypesResult := .ok (dataTypesSchema, dataTypesRows)
  describeResult := .ok
    [(some "Part 0", "truncate(5, bar)"), (some "Part 1", "bucket(3, baz)")]

theorem seqE_ok_left (b : Except Discrepancy Unit) : seqE (.ok ()) b = b := rfl

theorem seqE_ok_right (a : Except Discrepancy Unit) : seqE a (.ok ()) = a := by
  cases a with
  | ok u => cases u; rfl
  | error d => rfl

theorem seqE_ok_iff (a b : Except Discrepancy Unit) :
    seqE a b = .ok () ↔ a = .ok () ∧ b = .ok () := by
  cases a with
  | ok u => cases u; simp [seqE]
  | error d => simp [seqE]

theorem checkProp_ok_iff (props : List (String × String)) (k v : String) :
    checkProp props k v = .ok () ↔ dictGet props k = some v := by
  unfold checkProp
  cases h : dictGet props k with
  | none => simp
  | some a =>
    by_cases hav : a = v
    · simp [hav]
    · simp [hav]

theorem checkProp_error_shape (props : List (String × String)) (k v : String)
    (d : Discrepancy) (h : checkProp props k v = .error d) :
    (∃ key, d = .missingKey key) ∨ ∃ key e a, d = .valueMismatch key e a := by
  revert h
  unfold checkProp
  cases dictGet props k with
  | none =>
    intro h
    cases h
    exact Or.inl ⟨k, rfl⟩
  | some a =>
    intro h
    by_cases hav : a = v
    · simp [hav] at h
    · simp [hav] at h
      exact Or.inr ⟨k, v, a, h.symm⟩

theorem seqE_error_cases (a b : Except Discrepancy Unit) (d : Discrepancy)
    (h : seqE a b = .error d) : a = .error d ∨ (a = .ok () ∧ b = .error d) := by
  cases a with
  | ok u => cases u; right; exact ⟨rfl, h⟩
  | error e =>
    left
    cases h
    rfl

theorem mainRun_eq_scenario (t : String) (env : Env) :
    mainRun t env = scenarioResult t env := by
  by_cases h1 : t = "TestSetProperties" <;>
    by_cases h2 : t = "TestAddedFile" <;>
      by_cases h3 : t = "TestReadDifferentDataTypes" <;>
        by_cases h4 : t = "TestReadSpecUpdate" <;>
          simp [mainRun, scenarioResult, h1, h2, h3, h4, seqE_ok_left, seqE_ok_right]

/-- C4: in the AddedFile scenario, an actual row count of 13 against the
expected derived value 13 passes; an actual row count of 12 yields exactly
one derived-value discrepancy and the run fails. -/
theorem addedFile_count_verdict :
    testAddedFile (.ok [13]) = .ok () ∧
    testAddedFile (.ok [12]) = .error (.derivedMismatch "count(1)" 13 12) ∧
    reported (testAddedFile (.ok [12])) = [.derivedMismatch "count(1)" 13 12] :=
  ⟨rfl, rfl, rfl⟩

/-- C5: the ReadSpecUpdate scenario passes iff the descriptor map assigns
exactly the string "truncate(5, bar)" to "Part 0" and exactly the string
"bucket(3, baz)" to "Part 1"; any failing run reports a MissingKey or a
ValueMismatch discrepancy. -/
theorem readSpecUpdate_exact_strings (rows : List (Option String × String)) :
    (testReadSpecUpdate (.ok rows) = .ok () ↔
      dictGet (specMetadata rows) "Part 0" = some "truncate(5, bar)" ∧
      dictGet (specMetadata rows) "Part 1" = some "bucket(3, baz)") ∧
    ∀ d, testReadSpecUpdate (.ok rows) = .error d →
      (∃ key, d = .missingKey key) ∨ ∃ key e a, d = .valueMismatch key e a := by
  have hred : testReadSpecUpdate (.ok rows) =
      seqE (checkProp (specMetadata rows) "Part 0" "truncate(5, bar)")
        (checkProp (specMetadata rows) "Part 1" "bucket(3, baz)") := rfl
  constructor
  · rw [hred, seqE_ok_iff, checkProp_ok_iff, checkProp_ok_iff]
  · intro d h
    rw [hred] at h
    rcases seqE_error_cases _ _ _ h with h1 | ⟨_, h2⟩
    · exact checkProp_error_shape _ _ _ _ h1
    · exact checkProp_error_shape _ _ _ _ h2

/-- Witness for C5: the exact descriptor strings pass, and a run with an
empty descriptor map fails with a key discrepancy. -/
theorem readSpecUpdate_exact_strings_witness :
    testReadSpecUpdate (.ok [(some "Part 0", "truncate(5, bar)"),
      (some "Part 1", "bucket(3, baz)")]) = .ok () ∧
    ((∃ key, Discrepancy.missingKey "Part 0" = .missingKey key) ∨
      ∃ key e a, Discrepancy.missingKey "Part 0" = .valueMismatch key e a) :=
  ⟨(readSpecUpdate_exact_strings _).1.mpr ⟨rfl, rfl⟩,
   (readSpecUpdate_exact_strings []).2 _ rfl⟩

/-- C3: the SetProperties scenario passes with the four expected property
values, and changing any single one of the four values (the others held
equal) yields exactly one ValueMismatch discrepancy naming that key. -/
theorem setProperties_each_value (v : String) :
    testSetProperties (.ok goodProps) = .ok () ∧
    (v ≠ "snappy" →
      testSetProperties (.ok (setVal goodProps "write.parquet.compression-codec" v)) =
        .error (.valueMismatch "write.parquet.compression-codec" "snappy" v)) ∧
    (v ≠ "true" →
      testSetProperties (.ok (setVal goodProps "commit.manifest-merge.enabled" v)) =
        .error (.valueMismatch "commit.manifest-merge.enabled" "true" v)) ∧
    (v ≠ "1" →
      testSetProperties (.ok (setVal goodProps "commit.manifest.min-count-to-merge" v)) =
        .error (.valueMismatch "commit.manifest.min-count-to-merge" "1" v)) ∧
    (v ≠ "1" →
      testSetProperties (.ok (setVal goodProps "commit.manifest.target-size-bytes" v)) =
        .error (.valueMismatch "commit.manifest.target-size-bytes" "1" v)) := by
  refine ⟨rfl, ?_, ?_, ?_, ?_⟩ <;> intro hv <;>
    simp [testSetProperties, setVal, goodProps, checkProp, dictGet, seqE, hv]

/-- Witness for C3: the passing run and each of the four single-value
changes at the concrete replacement value "zzz". -/
theorem setProperties_each_value_witness :
    testSetProperties (.ok goodProps) = .ok () ∧
    testSetProperties (.ok (setVal goodProps "write.parquet.compression-codec" "zzz")) =
      .error (.valueMismatch "write.parquet.compression-codec" "snappy" "zzz") ∧
    testSetProperties (.ok (setVal goodProps "commit.manifest-merge.enabled" "zzz")) =
      .error (.valueMismatch "commit.manifest-merge.enabled" "true" "zzz") ∧
    testSetProperties (.ok (setVal goodProps "commit.manifest.min-count-to-merge" "zzz")) =
      .error (.valueMismatch "commit.manifest.min-count-to-merge" "1" "zzz") ∧
    testSetProperties (.ok (setVal goodProps "commit.manifest.target-size-bytes" "zzz")) =
      .error (.valueMismatch "commit.manifest.target-size-bytes" "1" "zzz") :=
  ⟨(setProperties_each_value "zzz").1,
   (setProperties_each_value "zzz").2.1 (by decide),
   (setProperties_each_value "zzz").2.2.1 (by decide),
   (setProperties_each_value "zzz").2.2.2.1 (by decide),
   (setProperties_each_value "zzz").2.2.2.2 (by decide)⟩

/-- C2 counterexample: with both the compression codec and the
manifest-merge flag wrong, the manifest-merge value mismatch exists but its
discrepancy is not reported — the run surfaces only the first mismatch. -/
theorem setProperties_second_mismatch_unreported :
    dictGet twoWrongProps "commit.manifest-merge.enabled" = some "false" ∧
    ("false" : String) ≠ "true" ∧
    reported (testSetProperties (.ok twoWrongProps)) =
      [.valueMismatch "write.parquet.compression-codec" "snappy" "gzip"] ∧
    Discrepancy.valueMismatch "commit.manifest-merge.enabled" "true" "false" ∉
      reported (testSetProperties (.ok twoWrongProps)) :=
  ⟨rfl, by decide, rfl, by decide⟩

/-- C2 amended: comparator-level mismatches abort the scenario — a run
reports at most one discrepancy, the first mismatch in check order, so
later mismatches of the same run go undetected. -/
theorem setProperties_first_failure_aborts
    (fetch : Except Unit (List (String × String))) :
    (reported (testSetProperties fetch)).length ≤ 1 ∧
    testSetProperties (.ok twoWrongProps) =
      .error (.valueMismatch "write.parquet.compression-codec" "snappy" "gzip") := by
  constructor
  · cases h : testSetProperties fetch <;> simp [reported]
  · rfl

mutual

theorem equal_refl_aux : ∀ (x : CanonicalValue) (t : LogicalType), equal x x t = true
  | .null, _ => rfl
  | .bool _, _ => by simp [equal]
  | .str _, _ => by simp [equal]
  | .int _, _ => by simp [equal]
  | .float _, _ => by simp [equal]
  | .dec _ _, _ => by simp [equal]
  | .date _, _ => by simp [equal]
  | .ts _ _, _ => by simp [equal]
  | .bin _, _ => by simp [equal]
  | .list xs, t => by
    rw [show equal (.list xs) (.list xs) t = equalList xs xs t.elemType from rfl]
    exact equalList_refl_aux xs t.elemType

theorem equalList_refl_aux : ∀ (xs : CVList) (t : LogicalType), equalList xs xs t = true
  | .nil, _ => rfl
  | .cons x xs, t => by
    rw [show equalList (.cons x xs) (.cons x xs) t = (equal x x t && equalList xs xs t)
      from rfl]
    rw [equal_refl_aux x t, equalList_refl_aux xs t]
    rfl

end

mutual

theorem equal_symm_aux : ∀ (x y : CanonicalValue) (t : LogicalType),
    equal x y t = equal y x t
  | .null, y, _ => by cases y <;> rfl
  | .bool _, y, _ => by
    cases y <;> first
      | rfl
      | exact decide_eq_decide.mpr eq_comm
  | .str _, y, _ => by
    cases y <;> first
      | rfl
      | exact decide_eq_decide.mpr eq_comm
  | .int _, y, _ => by
    cases y <;> first
      | rfl
      | exact decide_eq_decide.mpr eq_comm
  | .float _, y, _ => by
    cases y <;> first
      | rfl
      | exact decide_eq_decide.mpr eq_comm
  | .dec _ _, y, _ => by
    cases y <;> first
      | rfl
      | exact decide_eq_decide.mpr (and_congr eq_comm eq_comm)
  | .date _, y, _ => by
    cases y <;> first
      | rfl
      | exact decide_eq_decide.mpr eq_comm
  | .ts _ _, y, _ => by
    cases y <;> first
      | rfl
      | exact decide_eq_decide.mpr (and_congr eq_comm eq_comm)
  | .bin _, y, _ => by
    cases y <;> first
      | rfl
      | exact decide_eq_decide.mpr eq_comm
  | .list xs, y, t => by
    cases y with
    | list ys =>
      rw [show equal (.list xs) (.list ys) t = equalList xs ys t.elemType from rfl]
      rw [show equal (.list ys) (.list xs) t = equalList ys xs t.elemType from rfl]
      exact equalList_symm_aux xs ys t.elemType
    | null => rfl
    | bool _ => rfl
    | str _ => rfl
    | int _ => rfl
    | float _ => rfl
    | dec _ _ => rfl
    | date _ => rfl
    | ts _ _ => rfl
    | bin _ => rfl

theorem equalList_symm_aux : ∀ (xs ys : CVList) (t : LogicalType),
    equalList xs ys t = equalList ys xs t
  | .nil, .nil, _ => rfl
  | .nil, .cons _ _, _ => rfl
  | .cons _ _, .nil, _ => rfl
  | .cons x xs, .cons y ys, t => by
    rw [show equalList (.cons x xs) (.cons y ys) t = (equal x y t && equalList xs ys t)
      from rfl]
    rw [show equalList (.cons y ys) (.cons x xs) t = (equal y x t && equalList ys xs t)
      from rfl]
    rw [equal_symm_aux x y t, equalList_symm_aux xs ys t]

end

/-- C8: the equivalence check is reflexive and symmetric over all canonical
values (floats, decimals, timestamps, binaries and lists included) at every
declared logical type. -/
theorem equal_refl_and_symm :
    (∀ (x : CanonicalValue) (t : LogicalType), equal x x t = true) ∧
    (∀ (x y : CanonicalValue) (t : LogicalType), equal x y t = equal y x t) :=
  ⟨equal_refl_aux, equal_symm_aux⟩

/-- C1: at declared type Decimal(8,2), the canonical value of
Decimal "123456.78" (unscaled 12345678 at scale 2) is unequal to every
decimal value reported at a scale other than 2 — in particular to
Decimal "123456.780" (unscaled 123456780 at scale 3), though numerically
equal — while any two decimal values with the identical unscaled integer at
the identical declared scale are equal. -/
theorem decimal_scale_equivalence :
    (∀ (u : Int) (s : Nat), s ≠ 2 →
      equal (.dec 12345678 2) (.dec u s) (.decimal 8 2) = false) ∧
    equal (.dec 12345678 2) (.dec 123456780 3) (.decimal 8 2) = false ∧
    ∀ (u : Int) (s p ps : Nat), equal (.dec u s) (.dec u s) (.decimal p ps) = true := by
  refine ⟨?_, by rfl, ?_⟩
  · intro u s hs
    exact decide_eq_false fun hc => hs hc.2.symm
  · intro u s p ps
    simp [equal]

/-- Witness for C1: a decimal reported at scale 4 with a padded unscaled
value is rejected. -/
theorem decimal_scale_equivalence_witness :
    equal (.dec 12345678 2) (.dec 1234567800 4) (.decimal 8 2) = false :=
  decimal_scale_equivalence.1 1234567800 4 (by decide)

/-- C9: coercion at a FixedBinary declared type fails with LengthMismatch
exactly when the raw byte length differs from the declared length, and
accepts the payload otherwise; in particular the scenario's 16-byte fixed
field rejects any payload of another length at coercion time, as a
LengthMismatch rather than a mere value inequality. -/
theorem fixedBinary_length_check :
    (∀ (bs : List Nat) (len : Nat) (nb : Bool), bs.length ≠ len →
      coerce (.bytes bs) (.fixedBinary len) nb = .error .lengthMismatch) ∧
    (∀ (bs : List Nat) (len : Nat) (nb : Bool), bs.length = len →
      coerce (.bytes bs) (.fixedBinary len) nb = .ok (.bin bs)) ∧
    ∀ bs : List Nat, bs.length ≠ 16 →
      coerce (.bytes bs) (.fixedBinary 16) true = .error .lengthMismatch := by
  refine ⟨?_, ?_, ?_⟩
  · intro bs len nb h
    simp [coerce, h]
  · intro bs len nb h
    simp [coerce, h]
  · intro bs h
    simp [coerce, h]

/-- Witness for C9: a 15-byte payload is a LengthMismatch at the 16-byte
fixed field, a 16-byte payload coerces. -/
theorem fixedBinary_length_check_witness :
    coerce (.bytes (List.replicate 15 0)) (.fixedBinary 16) true =
      .error .lengthMismatch ∧
    coerce (.bytes (List.replicate 16 0)) (.fixedBinary 16) true =
      .ok (.bin (List.replicate 16 0)) :=
  ⟨fixedBinary_length_check.2.2 (List.replicate 15 0) (by simp),
   fixedBinary_length_check.2.1 (List.replicate 16 0) 16 true (by simp)⟩

/-- C6: a null raw value coerces to canonical null at every nullable
declared type (and fails with UnexpectedNull at a non-nullable field); the
all-null 17-field row of the DifferentDataTypes scenario coerces without
error and compares equal to the all-null expected row; null never equals a
non-null canonical value. -/
theorem null_coercion_and_equality :
    (∀ t : LogicalType, coerce .null t true = .ok .null) ∧
    (∀ t : LogicalType, coerce .null t false = .error .unexpectedNull) ∧
    coerceRow (List.replicate 17 .null) dataTypesLogical =
      .ok (List.replicate 17 CanonicalValue.null) ∧
    pyCellsEq allNullRow allNullRow = true ∧
    ∀ (v : CanonicalValue) (t : LogicalType), v ≠ .null →
      equal .null v t = false ∧ equal v .null t = false := by
  refine ⟨fun t => rfl, fun t => rfl, by rfl, by rfl, ?_⟩
  intro v t hv
  cases v with
  | null => exact absurd rfl hv
  | bool _ => exact ⟨rfl, rfl⟩
  | str _ => exact ⟨rfl, rfl⟩
  | int _ => exact ⟨rfl, rfl⟩
  | float _ => exact ⟨rfl, rfl⟩
  | dec _ _ => exact ⟨rfl, rfl⟩
  | date _ => exact ⟨rfl, rfl⟩
  | ts _ _ => exact ⟨rfl, rfl⟩
  | bin _ => exact ⟨rfl, rfl⟩
  | list _ => exact ⟨rfl, rfl⟩

/-- Witness for C6: null against a non-null boolean is unequal in both
directions. -/
theorem null_coercion_and_equality_witness :
    equal .null (.bool true) .boolean = false ∧
    equal (.bool true) .null .boolean = false :=
  null_coercion_and_equality.2.2.2.2 (.bool true) .boolean (fun h => nomatch h)

/-- C7: for every recognized scenario name, the process exits 0 exactly
when the selected scenario's verdict is Passed, and exits 1 whenever the
scenario failed on an assertion or its query raised an execution error. -/
theorem exit_zero_iff_passed (env : Env) (t : String) (_h : t ∈ recognizedTests) :
    (exitCode t env = 0 ↔ scenarioResult t env = .ok ()) ∧
    (scenarioResult t env ≠ .ok () → exitCode t env = 1) := by
  unfold exitCode
  rw [mainRun_eq_scenario]
  cases hs : scenarioResult t env with
  | ok u => cases u; simp
  | error d => simp

/-- Witness for C7 at the AddedFile scenario against an all-correct
engine environment. -/
theorem exit_zero_iff_passed_witness :
    (exitCode "TestAddedFile" envAllOk = 0 ↔
      scenarioResult "TestAddedFile" envAllOk = .ok ()) ∧
    (scenarioResult "TestAddedFile" envAllOk ≠ .ok () →
      exitCode "TestAddedFile" envAllOk = 1) :=
  exit_zero_iff_passed envAllOk "TestAddedFile" (by decide)

/-- C10: an unrecognized test name runs no scenario — no query is issued to
the engine and the process exits 0, indistinguishable from a pass at the
exit-code interface. -/
theorem unknown_test_is_noop (env : Env) (t : String) (h : t ∉ recognizedTests) :
    queriesIssued t = [] ∧ mainRun t env = .ok () ∧ exitCode t env = 0 := by
  simp only [recognizedTests, List.mem_cons, List.not_mem_nil, or_false, not_or] at h
  obtain ⟨h1, h2, h3, h4⟩ := h
  refine ⟨?_, ?_, ?_⟩
  · simp [queriesIssued, h1, h2, h3, h4]
  · simp [mainRun, h1, h2, h3, h4, seqE]
  · simp [exitCode, mainRun, h1, h2, h3, h4, seqE]

/-- Witness for C10: the name "TestBogus" issues no query and exits 0. -/
theorem unknown_test_is_noop_witness :
    queriesIssued "TestBogus" = [] ∧ mainRun "TestBogus" envAllOk = .ok () ∧
      exitCode "TestBogus" envAllOk = 0 :=
  unknown_test_is_noop envAllOk "TestBogus" (by decide)
